import Mathlib

/-!
Verification of the event-dispatch layer of `beakerx_tabledisplay`
(`src/js/src/dataGrid/event/EventManager.ts`), as a shallow embedding.

The `EventManager` class receives raw DOM pointer/wheel/keyboard events and
translates them into calls against cooperating controllers (selection, focus,
resize, column position, tooltips) of a `BeakerXDataGrid`.  The controllers
themselves are not part of the sources (only `EventManager.ts` is); where a
controller's effect on state matters for a property, it is modelled from the
specification and the definition's doc comment says so.

Modelling choices:
- All mutable state visible to the event manager (its own fields, the DOM
  listener registry, JS timers, and the controller state it drives) lives in
  one record `GridState`.  Handlers are functions `GridState → Event → GridState`
  (or `Except String GridState` where the JS code can throw).
- Every call to an external collaborator appends an `Effect` to `GridState.log`,
  so properties about *which* calls a handler makes are statements about the log.
- External pure queries whose implementation is outside the sources
  (`getCellData`, `EventHelpers.isOutsideNode`, ...) are oracle function fields
  of `GridState`.
- JS numbers are modelled as `Int` (all quantities involved are integral),
  DOM nodes by `Nat` identity tags, and JS `undefined`/`null` by `Option`.
-/

/-- Modelled from the spec: the `COLUMN_TYPES` enum (file `column/enums.ts` is
not under the sources); the spec distinguishes only the index column from body
data columns. -/
inductive COLUMN_TYPES where
  | index
  | body
deriving DecidableEq, Repr

/-- Cell data produced by the grid's spatial query (`ICellData`): region name,
rendered row index, column index, pixel geometry and the cell's value. -/
structure CellData where
  region : String
  row : Nat
  column : Nat
  type : COLUMN_TYPES
  delta : Int
  width : Int
  value : String
deriving DecidableEq, Repr

/-- A row entry of `grid.rowManager.rows`: carries the logical row `index`. -/
structure RowEntry where
  index : Int
deriving DecidableEq, Repr

/-- The fields of a DOM `MouseEvent` read by `EventManager`.  `target` is the
identity tag of the DOM node the event targeted. -/
structure MouseEvent where
  clientX : Int
  clientY : Int
  buttons : Nat
  button : Nat
  target : Nat
deriving DecidableEq, Repr

/-- The fields of a DOM `WheelEvent` read by `onWheel`. -/
structure WheelEvent where
  deltaX : Int
  deltaY : Int
  deltaMode : Nat
deriving DecidableEq, Repr

/-- The fields of a DOM `KeyboardEvent` read by `onKeyDown`. -/
structure KeyboardEvent where
  keyCode : Nat
  shiftKey : Bool
deriving DecidableEq, Repr

/-- The two outbound message types `EventManager` emits on `grid.commSignal`:
`DoubleClickMessage(row, column)` and `ActionDetailsMessage(action, row, column)`. -/
inductive CommMessage where
  | doubleClick (row : Int) (column : Nat)
  | actionDetails (action : String) (row : Int) (column : Nat)
deriving DecidableEq, Repr

/-- One call made by the event manager against an external collaborator
(controller operation, signal emission, scroll primitive, ...).  The handlers
append these to `GridState.log` in call order. -/
inductive Effect where
  | stopResizing
  | selectionHandleMouseUp
  | toggleSort (region : String) (column : Nat)
  | openUrl (url : String)
  | dropColumn
  | stopDragging
  | setResizeMode
  | startResizing
  | startDragging (d : CellData)
  | moveDraggedHeader
  | cellHovered (d : Option CellData)
  | selectionBodyCellHover
  | selectionHandleMouseDown
  | hideTooltips
  | setCursorStyle (style : String)
  | setFocus (b : Bool)
  | comm (m : CommMessage)
  | scrollBy (dx dy : Int)
  | setStartCell (c : CellData)
  | cellInteraction (c : CellData)
  | setEndCell (c : Option CellData)
  | navigateFocusKey (code : Nat)
  | scrollByPage (up : Bool)
  | toggleHighlighter (col : Nat) (t : String)
  | toggleDataBars (col : Nat)
  | setDataTypePrecision (col : Nat) (n : Nat)
  | setColumnsPrecision (n : Nat)
deriving DecidableEq, Repr

/-- Which DOM element a listener is attached to: the grid's root node or the
table-display view's element. -/
inductive DomTarget where
  | gridNode
  | tableDisplayEl
deriving DecidableEq, Repr

/-- The three bound handler functions created in the `EventManager` constructor. -/
inductive HandlerId where
  | handleMouseMove
  | handleMouseLeave
  | handleMouseDown
deriving DecidableEq, Repr

/-- An entry of the DOM listener registry: target element, event type string,
and the listener function's identity. -/
structure Listener where
  target : DomTarget
  eventType : String
  handler : HandlerId
deriving DecidableEq, Repr

/-- The `cellHoverControl` object (`{ timerId: undefined }` initially); its
`timerId` holds the id of the pending hover-debounce timer, when one exists. -/
structure CellHoverControl where
  timerId : Option Nat
deriving DecidableEq, Repr

/-- The combined mutable state: the `EventManager`'s own fields, the DOM
listener registry, the JS timer table, and the grid/controller state the
manager reads and drives.  Fields implemented outside the sources are either
oracles (function fields) or are updated by the spec-modelled operations
below. -/
structure GridState where
  /-- `EventManager._disposed`. -/
  disposed : Bool
  /-- The DOM listener registry for the two elements the constructor touches. -/
  listeners : List Listener
  /-- `EventManager.cellHoverControl`; `none` after the deferred nulling ran. -/
  cellHoverControl : Option CellHoverControl
  /-- Ids of scheduled-and-not-yet-cleared JS timers. -/
  pendingTimers : List Nat
  /-- Next fresh JS timer id. -/
  nextTimerId : Nat
  /-- Ids of the zero-delay tasks scheduled by `clearReferences` (each such
  task nulls `cellHoverControl` when it eventually runs). -/
  deferredNullTasks : List Nat
  /-- `grid.focused`. -/
  focused : Bool
  /-- `grid.dataGridResize.isResizing()`. -/
  isResizing : Bool
  /-- Oracle: the value `isResizing()` reports right after a call to
  `dataGridResize.setResizeMode(event)` (that controller is outside the
  sources, so whether the call flips the flag is left open). -/
  resizeAfterSetMode : Bool
  /-- Oracle: `grid.dataGridResize.shouldResizeDataGrid(event)`. -/
  shouldResizeDataGrid : MouseEvent → Bool
  /-- Oracle: `grid.getCellData(clientX, clientY)` spatial query. -/
  getCellData : Int → Int → Option CellData
  /-- `grid.viewport.node.getBoundingClientRect().left`. -/
  viewportLeft : Int
  /-- `grid.viewport.node.getBoundingClientRect().top`. -/
  viewportTop : Int
  /-- `grid.bodyWidth`. -/
  bodyWidth : Int
  /-- `grid.getRowHeaderSections().length`. -/
  rowHeaderSectionsLength : Nat
  /-- `grid.headerHeight`. -/
  headerHeight : Int
  /-- Identity tag of the grid's own rendering surface `grid['_canvas']`. -/
  canvas : Nat
  /-- `grid.columnPosition.dropCellData`. -/
  dropCellData : Option CellData
  /-- `grid.columnPosition.isDragging()`: a column drag is in progress. -/
  isDragging : Bool
  /-- `grid.cellManager.hoveredCellData`. -/
  hoveredCellData : Option CellData
  /-- Oracle: `CellManager.cellsEqual` (that class is outside the sources). -/
  cellsEqual : CellData → CellData → Bool
  /-- Oracle: `DataGridHelpers.retrieveUrl` (outside the sources). -/
  retrieveUrl : String → Option String
  /-- `grid.store.selectAutoLinkTableLinks()`. -/
  selectAutoLinkTableLinks : Bool
  /-- `grid.store.selectHasDoubleClickAction()`. -/
  selectHasDoubleClickAction : Bool
  /-- `grid.store.selectDoubleClickTag()` truthiness. -/
  selectDoubleClickTag : Bool
  /-- `grid.rowManager.rows`. -/
  rows : List RowEntry
  /-- `grid.defaultSizes.columnWidth`. -/
  defaultColumnWidth : Int
  /-- `grid.defaultSizes.rowHeight`. -/
  defaultRowHeight : Int
  /-- `grid.pageWidth`. -/
  pageWidth : Int
  /-- `grid.pageHeight`. -/
  pageHeight : Int
  /-- `grid.cellFocusManager.focusedCellData`. -/
  focusedCellData : Option CellData
  /-- Oracle: the grid's navigation rule — the focused cell that results from
  pressing the navigation key `code` with the given current focus (the Focus
  Manager is outside the sources). -/
  navigateFocus : Nat → Option CellData → Option CellData
  /-- `grid.cellSelectionManager.startCellData` (the selection anchor). -/
  startCellData : Option CellData
  /-- `grid.cellSelectionManager.endCellData` (the selection end). -/
  endCellData : Option CellData
  /-- Oracle: `EventHelpers.isOutsideNode(event, grid.viewport.node)`. -/
  outsideViewport : MouseEvent → Bool
  /-- Oracle: `EventHelpers.isInsideGridNode(event, grid.node)`. -/
  insideGridNode : MouseEvent → Bool
  /-- Oracle: `grid.columnManager.takeColumnByCell`, as the focused column's
  index into `precisions` (the Column Manager is outside the sources). -/
  takeColumnByCell : CellData → Option Nat
  /-- Display precision of each column, indexed by column id. -/
  precisions : List Nat
  /-- Call log: every external call made so far, in order. -/
  log : List Effect

/-- Append one effect to the call log. -/
def GridState.emit (s : GridState) (e : Effect) : GridState :=
  { s with log := s.log ++ [e] }

/-- DOM `addEventListener`: registering an already-registered
(target, type, listener) triple is discarded by the DOM. -/
def addEventListener (s : GridState) (l : Listener) : GridState :=
  if l ∈ s.listeners then s else { s with listeners := s.listeners ++ [l] }

/-- DOM `removeEventListener`: removes the matching (target, type, listener)
triple when present; a no-op when no such listener is registered. -/
def removeEventListener (s : GridState) (l : Listener) : GridState :=
  { s with listeners := s.listeners.filter (fun x => x ≠ l) }

/-- JS `setTimeout`: schedules a fresh timer and returns its id. -/
def setTimeoutFresh (s : GridState) : GridState × Nat :=
  ({ s with pendingTimers := s.pendingTimers ++ [s.nextTimerId]
          , nextTimerId := s.nextTimerId + 1 }, s.nextTimerId)

/-- JS `clearTimeout`: cancels the timer when the argument is a live id;
`clearTimeout(undefined)` is a no-op. -/
def clearTimeoutJs (s : GridState) : Option Nat → GridState
  | none => s
  | some id => { s with pendingTimers := s.pendingTimers.filter (fun x => x ≠ id) }

/-! ## Spec-modelled controller operations

Each of the following wraps one call the event manager makes on a collaborator
whose implementation is not under the sources.  Each logs the call; where the
spec describes the call's effect on controller state, the state field is
updated accordingly. -/

/-- Modelled from the spec: `dataGridResize.stopResizing()` finalizes the
active resize gesture, clearing the resize-in-progress state. -/
def stopResizing (s : GridState) : GridState :=
  { s.emit .stopResizing with isResizing := false }

/-- Modelled from the spec: `dataGridResize.startResizing(event)` enters
resize mode. -/
def startResizing (s : GridState) : GridState :=
  { s.emit .startResizing with isResizing := true }

/-- Modelled from the spec: `dataGridResize.setResizeMode(event)` re-evaluates
resize eligibility from the pointer position (cursor affordance); whether it
leaves the grid resizing is the oracle `resizeAfterSetMode`. -/
def setResizeMode (s : GridState) : GridState :=
  { s.emit .setResizeMode with isResizing := s.resizeAfterSetMode }

/-- Modelled from the spec: `columnPosition.stopDragging()` cancels the
drag-in-progress state. -/
def stopDragging (s : GridState) : GridState :=
  { s.emit .stopDragging with isDragging := false }

/-- Modelled from the spec: `columnPosition.startDragging(data)` records the
start of a column drag. -/
def startDragging (s : GridState) (d : CellData) : GridState :=
  { s.emit (.startDragging d) with isDragging := true }

/-- Modelled from the spec: `columnPosition.dropColumn()` drops any
in-progress column drag (drag state must be cleared on mouse-up even when no
displacement occurred). -/
def dropColumn (s : GridState) : GridState :=
  { s.emit .dropColumn with isDragging := false, dropCellData := none }

/-- Modelled from the spec: `columnPosition.moveDraggedHeader(event)` updates
the position of an in-progress column drag (position only; the
drag-in-progress flag is untouched). -/
def moveDraggedHeader (s : GridState) : GridState :=
  s.emit .moveDraggedHeader

/-- Modelled from the spec: `grid.setFocus(b)` sets the grid's focused flag. -/
def setFocus (s : GridState) (b : Bool) : GridState :=
  { s.emit (.setFocus b) with focused := b }

/-- `grid.cellHovered.emit({data, event})` hover notification (signal emission;
log only). -/
def emitCellHovered (s : GridState) (d : Option CellData) : GridState :=
  s.emit (.cellHovered d)

/-- `grid.cellSelectionManager.handleMouseUp(event)` (log only). -/
def selectionHandleMouseUp (s : GridState) : GridState :=
  s.emit .selectionHandleMouseUp

/-- `grid.cellSelectionManager.handleBodyCellHover(event)` (log only). -/
def selectionBodyCellHover (s : GridState) : GridState :=
  s.emit .selectionBodyCellHover

/-- `grid.cellSelectionManager.handleMouseDown(event)` (log only). -/
def selectionHandleMouseDown (s : GridState) : GridState :=
  s.emit .selectionHandleMouseDown

/-- `grid.cellTooltipManager.hideTooltips()` (log only). -/
def hideTooltips (s : GridState) : GridState :=
  s.emit .hideTooltips

/-- `grid.dataGridResize.setCursorStyle(style)` (log only). -/
def setCursorStyle (s : GridState) (style : String) : GridState :=
  s.emit (.setCursorStyle style)

/-- `destColumn.toggleSort()` on the column at the position built from the
clicked cell (the position is region + column index per the spec's column
identity). -/
def toggleSort (s : GridState) (d : CellData) : GridState :=
  s.emit (.toggleSort d.region d.column)

/-- `window.open(url)` (log only). -/
def openUrl (s : GridState) (url : String) : GridState :=
  s.emit (.openUrl url)

/-- `grid.commSignal.emit(message)` outbound message (log only). -/
def emitComm (s : GridState) (m : CommMessage) : GridState :=
  s.emit (.comm m)

/-- `grid.scrollBy(dx, dy)` scroll primitive (log only). -/
def scrollBy (s : GridState) (dx dy : Int) : GridState :=
  s.emit (.scrollBy dx dy)

/-- `grid.scrollByPage(dir)` (log only). -/
def scrollByPage (s : GridState) (up : Bool) : GridState :=
  s.emit (.scrollByPage up)

/-- Modelled from the spec: `cellSelectionManager.setStartCell(cellData)` sets
the selection anchor. -/
def setStartCell (s : GridState) (c : CellData) : GridState :=
  { s.emit (.setStartCell c) with startCellData := some c }

/-- Modelled from the spec: `cellSelectionManager.setEndCell(cellData)` sets
the selection's end cell. -/
def setEndCell (s : GridState) (c : Option CellData) : GridState :=
  { s.emit (.setEndCell c) with endCellData := c }

/-- `grid.cellSelectionManager.handleCellInteraction(cellData)` (log only). -/
def cellInteraction (s : GridState) (c : CellData) : GridState :=
  s.emit (.cellInteraction c)

/-- Modelled from the spec: `cellFocusManager.setFocusedCellByNavigationKey(code)`
moves focus to the next cell per the grid's navigation rule (`navigateFocus`). -/
def setFocusedCellByNavigationKey (s : GridState) (code : Nat) : GridState :=
  { s.emit (.navigateFocusKey code) with
      focusedCellData := s.navigateFocus code s.focusedCellData }

/-- Modelled from the spec: `column.setDataTypePrecision(n)` sets the display
precision of that single column. -/
def setDataTypePrecision (s : GridState) (col : Nat) (n : Nat) : GridState :=
  { s.emit (.setDataTypePrecision col n) with precisions := s.precisions.set col n }

/-- Modelled from the spec: `columnManager.setColumnsDataTypePrecission(n)`
sets the display precision across all columns uniformly. -/
def setColumnsDataTypePrecission (s : GridState) (n : Nat) : GridState :=
  { s.emit (.setColumnsPrecision n) with precisions := s.precisions.map (fun _ => n) }

/-! ## EventManager, translated from `EventManager.ts` -/

/-- `COLUMN_RESIZE_AREA_WIDTH = 4` (EventManager.ts:31). -/
def COLUMN_RESIZE_AREA_WIDTH : Int := 4

/-- The constructor half relevant to listener registration
(EventManager.ts:52-59): registers `handleMouseMove` for `mousemove` and
`handleMouseLeave` for `mouseout` on the grid node, and `handleMouseDown` for
`mousedown` on the table-display element. -/
def constructListeners (s : GridState) : GridState :=
  let s := addEventListener s ⟨.gridNode, "mousemove", .handleMouseMove⟩
  let s := addEventListener s ⟨.gridNode, "mouseout", .handleMouseLeave⟩
  addEventListener s ⟨.tableDisplayEl, "mousedown", .handleMouseDown⟩

/-- `clearReferences` (EventManager.ts:369-373): schedules a zero-delay task
that will null `cellHoverControl`; it cancels nothing itself. -/
def clearReferences (s : GridState) : GridState :=
  let (s, id) := setTimeoutFresh s
  { s with deferredNullTasks := s.deferredNullTasks ++ [id] }

/-- `dispose` (EventManager.ts:65-79): bail if already disposed; otherwise
clear references, call `removeEventListener` with the three pairs written in
the source — `('mousemove', handleMouseMove)`, `('mousemove', handleMouseLeave)`
and `('mousedown', handleMouseDown)` — then mark disposed. -/
def dispose (s : GridState) : GridState :=
  if s.disposed then s
  else
    let s := clearReferences s
    let s := removeEventListener s ⟨.gridNode, "mousemove", .handleMouseMove⟩
    let s := removeEventListener s ⟨.gridNode, "mousemove", .handleMouseLeave⟩
    let s := removeEventListener s ⟨.tableDisplayEl, "mousedown", .handleMouseDown⟩
    { s with disposed := true }

/-- `isOverHeader` (EventManager.ts:230-236). -/
def isOverHeader (s : GridState) (e : MouseEvent) : Bool :=
  let x := e.clientX - s.viewportLeft
  let y := e.clientY - s.viewportTop
  x < s.bodyWidth + (s.rowHeaderSectionsLength : Int) && y < s.headerHeight

/-- `isHeaderClicked` (EventManager.ts:254-256). -/
def isHeaderClicked (s : GridState) (e : MouseEvent) : Bool :=
  isOverHeader s e && e.button == 0 && e.target == s.canvas

/-- `isOutsideViewport` (EventManager.ts:293-295). -/
def isOutsideViewport (s : GridState) (e : MouseEvent) : Bool :=
  s.outsideViewport e

/-- `isNodeInsideGrid` (EventManager.ts:297-299). -/
def isNodeInsideGrid (s : GridState) (e : MouseEvent) : Bool :=
  s.insideGridNode e

/-- `handleHeaderClick` (EventManager.ts:238-252). -/
def handleHeaderClick (s : GridState) (e : MouseEvent) : GridState :=
  if !isHeaderClicked s e || s.dropCellData.isSome then s
  else
    match s.getCellData e.clientX e.clientY with
    | none => s
    | some data => toggleSort s data

/-- `handleBodyClick` (EventManager.ts:258-276). -/
def handleBodyClick (s : GridState) (e : MouseEvent) : GridState :=
  if isOverHeader s e || s.isDragging then s
  else
    match s.getCellData e.clientX e.clientY, s.hoveredCellData with
    | some cellData, some hovered =>
      if !s.cellsEqual cellData hovered then s
      else if !s.selectAutoLinkTableLinks then s
      else
        match s.retrieveUrl hovered.value with
        | some url => openUrl s url
        | none => s
    | _, _ => s

/-- `handleStartDragging` (EventManager.ts:278-291). -/
def handleStartDragging (s : GridState) (e : MouseEvent) : GridState :=
  match s.getCellData e.clientX e.clientY with
  | none => s
  | some data =>
    if !isHeaderClicked s e
        || (data.region == "corner-header" && data.column == 0)
        || data.width - data.delta < COLUMN_RESIZE_AREA_WIDTH then s
    else startDragging s data

/-- `onMouseUp` (EventManager.ts:85-94). -/
def onMouseUp (s : GridState) (e : MouseEvent) : GridState :=
  if s.isResizing then stopResizing s
  else
    let s := selectionHandleMouseUp s
    let s := handleHeaderClick s e
    let s := handleBodyClick s e
    dropColumn s

/-- `onMouseHover` (EventManager.ts:117-126). -/
def onMouseHover (s : GridState) (e : MouseEvent) : GridState :=
  match s.getCellData e.clientX e.clientY with
  | none => s
  | some data =>
    let s := emitCellHovered s (some data)
    selectionBodyCellHover s

/-- `onMouseMove` (EventManager.ts:96-115). -/
def onMouseMove (s : GridState) (e : MouseEvent) : GridState :=
  if s.isResizing then s
  else
    let s := if e.buttons ≠ 1 then stopDragging s else s
    let s := if !s.isResizing then setResizeMode s else s
    if s.isResizing || isOutsideViewport s e then s
    else
      let s := moveDraggedHeader s
      onMouseHover s e

/-- `onMouseDown` (EventManager.ts:128-145). -/
def onMouseDown (s : GridState) (e : MouseEvent) : GridState :=
  if e.buttons ≠ 1 then s
  else
    let s := if !s.focused then setFocus s true else s
    if !isHeaderClicked s e && s.shouldResizeDataGrid e then startResizing s
    else if isOutsideViewport s e then s
    else
      let s := selectionHandleMouseDown s
      handleStartDragging s e

/-- `onMouseLeave` (EventManager.ts:147-160).  The JS reads
`this.cellHoverControl.timerId`, which throws when `cellHoverControl` has been
nulled; the error value models that. -/
def onMouseLeave (s : GridState) (e : MouseEvent) : Except String GridState :=
  if isNodeInsideGrid s e || e.buttons ≠ 0 then .ok s
  else
    match s.cellHoverControl with
    | none => .error "TypeError: cellHoverControl is null"
    | some ctl =>
      let s := clearTimeoutJs s ctl.timerId
      let s := hideTooltips s
      let s := emitCellHovered s none
      let s := setCursorStyle s "auto"
      let s := stopDragging s
      .ok (setFocus s false)

/-- `getRowIndex` (EventManager.ts:301-303): `grid.rowManager.rows[i].index`
with no bounds check; in JS an out-of-range `i` reads `.index` of `undefined`
and throws, which the error value models. -/
def getRowIndex (s : GridState) (renderedRowIndex : Nat) : Except String Int :=
  match s.rows[renderedRowIndex]? with
  | some r => .ok r.index
  | none => .error "TypeError: rows[renderedRowIndex] is undefined"

/-- `onMouseDoubleClick` (EventManager.ts:162-181). -/
def onMouseDoubleClick (s : GridState) (e : MouseEvent) : Except String GridState :=
  if isOverHeader s e then .ok s
  else
    match s.getCellData e.clientX e.clientY with
    | none => .ok s
    | some data =>
      if data.type = COLUMN_TYPES.index then .ok s
      else
        match getRowIndex s data.row with
        | .error msg => .error msg
        | .ok row =>
          let s := if s.selectHasDoubleClickAction
                   then emitComm s (.doubleClick row data.column) else s
          let s := if s.selectDoubleClickTag
                   then emitComm s (.actionDetails "DOUBLE_CLICK" row data.column) else s
          .ok s

/-- `onWheel` (EventManager.ts:185-209): convert the deltas to pixels per
`deltaMode`, then scroll by the result; an unknown mode throws `'unreachable'`. -/
def onWheel (s : GridState) (e : WheelEvent) : Except String GridState :=
  let dx := e.deltaX
  let dy := e.deltaY
  match e.deltaMode with
  | 0 => .ok (scrollBy s dx dy)
  | 1 => .ok (scrollBy s (dx * s.defaultColumnWidth) (dy * s.defaultRowHeight))
  | 2 => .ok (scrollBy s (dx * s.pageWidth) (dy * s.pageHeight))
  | _ => .error "unreachable"

/-! ## Keyboard handling -/

/-- Modelled from the spec: the `KEYBOARD_KEYS` enum (file `event/enums.ts` is
not under the sources); the spec names the keys, whose standard DOM keyCode
values these are. -/
def KEYBOARD_KEYS.Enter : Nat := 13

/-- Modelled from the spec: standard DOM keyCode of PageUp. -/
def KEYBOARD_KEYS.PageUp : Nat := 33

/-- Modelled from the spec: standard DOM keyCode of PageDown. -/
def KEYBOARD_KEYS.PageDown : Nat := 34

/-- Modelled from the spec: standard DOM keyCode of ArrowLeft. -/
def KEYBOARD_KEYS.ArrowLeft : Nat := 37

/-- Modelled from the spec: standard DOM keyCode of ArrowUp. -/
def KEYBOARD_KEYS.ArrowUp : Nat := 38

/-- Modelled from the spec: standard DOM keyCode of ArrowRight. -/
def KEYBOARD_KEYS.ArrowRight : Nat := 39

/-- Modelled from the spec: standard DOM keyCode of ArrowDown. -/
def KEYBOARD_KEYS.ArrowDown : Nat := 40

/-- Modelled from the spec: standard DOM keyCode of the digit key 0. -/
def KEYBOARD_KEYS.Digit0 : Nat := 48

/-- Modelled from the spec: standard DOM keyCode of the digit key 9. -/
def KEYBOARD_KEYS.Digit9 : Nat := 57

/-- Modelled from the spec: standard DOM keyCode of KeyB. -/
def KEYBOARD_KEYS.KeyB : Nat := 66

/-- Modelled from the spec: standard DOM keyCode of KeyH. -/
def KEYBOARD_KEYS.KeyH : Nat := 72

/-- Modelled from the spec: standard DOM keyCode of KeyU. -/
def KEYBOARD_KEYS.KeyU : Nat := 85

/-- Modelled from the spec: `DataGridHelpers.getEventKeyCode` (outside the
sources) maps the physical key to a logical code; an unrecognized key yields
the falsy code `0`. -/
def getEventKeyCode (e : KeyboardEvent) : Nat := e.keyCode

/-- `parseInt(String.fromCharCode(code))` for a digit keyCode 48-57: the
character is '0'..'9', so the parsed number is `code - 48`. -/
def digitOfKeyCode (code : Nat) : Nat := code - 48

/-- `handleEnterKeyDown` (EventManager.ts:319-329). -/
def handleEnterKeyDown (s : GridState) (code : Nat) (shiftKey : Bool)
    (cellData : Option CellData) : GridState :=
  if code ≠ KEYBOARD_KEYS.Enter then s
  else
    match cellData with
    | none => s
    | some cd =>
      let s := if !shiftKey || s.startCellData.isNone then setStartCell s cd else s
      cellInteraction s cd

/-- `handleHighlighterKeyDown` (EventManager.ts:305-317); `column &&` guards
each toggle. -/
def handleHighlighterKeyDown (s : GridState) (code : Nat) (column : Option Nat) :
    GridState :=
  if code = KEYBOARD_KEYS.KeyH then
    match column with
    | some col => s.emit (.toggleHighlighter col "heatmap")
    | none => s
  else if code = KEYBOARD_KEYS.KeyU then
    match column with
    | some col => s.emit (.toggleHighlighter col "uniqueEntries")
    | none => s
  else if code = KEYBOARD_KEYS.KeyB then
    match column with
    | some col => s.emit (.toggleDataBars col)
    | none => s
  else s

/-- `handleNavigationKeyDown` (EventManager.ts:331-353).  Note the source
reads `grid.cellFocusManager.focusedCellData` again for `setEndCell`, i.e.
after the navigation moved the focus. -/
def handleNavigationKeyDown (s : GridState) (code : Nat) (e : KeyboardEvent) :
    GridState :=
  let navigationKeyCodes := [KEYBOARD_KEYS.ArrowLeft, KEYBOARD_KEYS.ArrowRight,
    KEYBOARD_KEYS.ArrowDown, KEYBOARD_KEYS.ArrowUp,
    KEYBOARD_KEYS.PageUp, KEYBOARD_KEYS.PageDown]
  if ¬ code ∈ navigationKeyCodes then s
  else
    let s :=
      if s.focusedCellData.isSome then setFocusedCellByNavigationKey s code
      else if code = KEYBOARD_KEYS.PageDown || code = KEYBOARD_KEYS.PageUp then
        scrollByPage s (code = KEYBOARD_KEYS.PageUp)
      else s
    if e.shiftKey then setEndCell s s.focusedCellData else s

/-- `handleNumKeyDown` (EventManager.ts:355-367). -/
def handleNumKeyDown (s : GridState) (code : Nat) (shiftKey : Bool)
    (column : Option Nat) : GridState :=
  if code < KEYBOARD_KEYS.Digit0 || code > KEYBOARD_KEYS.Digit9 then s
  else
    let number := digitOfKeyCode code
    match shiftKey, column with
    | true, some col => setDataTypePrecision s col number
    | _, _ => setColumnsDataTypePrecission s number

/-- `onKeyDown` (EventManager.ts:211-228): resolve the focused cell and its
column, map the key to a code, bail on a falsy code, then dispatch in fixed
order to the four sub-handlers. -/
def onKeyDown (s : GridState) (e : KeyboardEvent) : GridState :=
  let focusedCell := s.focusedCellData
  let column := focusedCell.bind s.takeColumnByCell
  let code := getEventKeyCode e
  if code = 0 then s
  else
    let s := handleEnterKeyDown s code e.shiftKey focusedCell
    let s := handleHighlighterKeyDown s code column
    let s := handleNumKeyDown s code e.shiftKey column
    handleNavigationKeyDown s code e

/-- The outbound comm messages recorded in a call log, in order. -/
def commLog (l : List Effect) : List CommMessage :=
  l.filterMap fun eff =>
    match eff with
    | .comm m => some m
    | _ => none

/-! ## Concrete sample state -/

/-- A concrete base state with trivial oracles, used to instantiate the
theorems below on concrete inputs. -/
def sampleBase : GridState where
  disposed := false
  listeners := []
  cellHoverControl := some ⟨none⟩
  pendingTimers := []
  nextTimerId := 0
  deferredNullTasks := []
  focused := false
  isResizing := false
  resizeAfterSetMode := false
  shouldResizeDataGrid := fun _ => false
  getCellData := fun _ _ => none
  viewportLeft := 0
  viewportTop := 0
  bodyWidth := 100
  rowHeaderSectionsLength := 1
  headerHeight := 24
  canvas := 1
  dropCellData := none
  isDragging := false
  hoveredCellData := none
  cellsEqual := fun a b => a == b
  retrieveUrl := fun _ => none
  selectAutoLinkTableLinks := false
  selectHasDoubleClickAction := true
  selectDoubleClickTag := true
  rows := [⟨0⟩, ⟨1⟩]
  defaultColumnWidth := 64
  defaultRowHeight := 20
  pageWidth := 400
  pageHeight := 500
  focusedCellData := none
  navigateFocus := fun _ c => c
  startCellData := none
  endCellData := none
  outsideViewport := fun _ => false
  insideGridNode := fun _ => false
  takeColumnByCell := fun _ => none
  precisions := [0, 0]
  log := []

/-- The state right after the `EventManager` constructor registered its three
listeners (EventManager.ts:52-59). -/
def constructedState : GridState := constructListeners sampleBase

/-- C10: for every mouse-down event whose `buttons` field is not 1, onMouseDown
performs no action at all and leaves all state (and the call log) unchanged. -/
theorem C10_mouse_down_nonprimary_noop (s : GridState) (e : MouseEvent)
    (hb : e.buttons ≠ 1) : onMouseDown s e = s := by
  unfold onMouseDown
  simp [hb]

theorem C10_mouse_down_nonprimary_noop_concrete :
    onMouseDown sampleBase { clientX := 3, clientY := 4, buttons := 0, button := 0, target := 1 }
      = sampleBase :=
  C10_mouse_down_nonprimary_noop sampleBase _ (by decide)

/-- C3: onWheel converts the delta pair to pixels as a function of deltaMode —
mode 0 passes through, mode 1 multiplies by default column width / row height,
mode 2 by page width / height — and scrolls the viewport by exactly that pixel
amount (one `scrollBy` call appended to the log); any other mode raises the
fatal 'unreachable' condition and performs no scroll. -/
theorem C3_wheel_delta_conversion (s : GridState) (e : WheelEvent) :
    (e.deltaMode = 0 → onWheel s e = .ok (scrollBy s e.deltaX e.deltaY)) ∧
    (e.deltaMode = 1 → onWheel s e =
      .ok (scrollBy s (e.deltaX * s.defaultColumnWidth) (e.deltaY * s.defaultRowHeight))) ∧
    (e.deltaMode = 2 → onWheel s e =
      .ok (scrollBy s (e.deltaX * s.pageWidth) (e.deltaY * s.pageHeight))) ∧
    (3 ≤ e.deltaMode → onWheel s e = .error "unreachable") ∧
    (∀ dx dy, (scrollBy s dx dy).log = s.log ++ [.scrollBy dx dy]) := by
  rcases e with ⟨dx, dy, m⟩
  refine ⟨?_, ?_, ?_, ?_, ?_⟩
  · intro h
    simp only at h
    subst h
    rfl
  · intro h
    simp only at h
    subst h
    rfl
  · intro h
    simp only at h
    subst h
    rfl
  · intro h
    simp only at h
    obtain ⟨k, rfl⟩ : ∃ k, m = k + 3 := ⟨m - 3, by omega⟩
    rfl
  · intro a b
    rfl

theorem C3_wheel_delta_conversion_samples :
    (onWheel sampleBase ⟨0, 2, 1⟩ = .ok (scrollBy sampleBase 0 40)) ∧
    (onWheel sampleBase ⟨0, 1, 2⟩ = .ok (scrollBy sampleBase 0 500)) ∧
    (onWheel sampleBase ⟨0, 1, 3⟩ = .error "unreachable") := by
  refine ⟨?_, ?_, ?_⟩
  · have h := (C3_wheel_delta_conversion sampleBase ⟨0, 2, 1⟩).2.1 rfl
    simpa using h
  · have h := (C3_wheel_delta_conversion sampleBase ⟨0, 1, 2⟩).2.2.1 rfl
    simpa using h
  · exact (C3_wheel_delta_conversion sampleBase ⟨0, 1, 3⟩).2.2.2.1 (by decide)

/-- A stale cell whose rendered row index (5) is outside the sample grid's
two-element rows collection. -/
def staleCell : CellData :=
  { region := "body", row := 5, column := 2, type := .body
    , delta := 10, width := 60, value := "v" }

/-- A grid whose spatial query reports `staleCell` everywhere. -/
def staleGrid : GridState :=
  { sampleBase with getCellData := fun _ _ => some staleCell }

/-- A double-click position below the header band (y = 100 ≥ headerHeight). -/
def staleEvt : MouseEvent :=
  { clientX := 50, clientY := 100, buttons := 0, button := 0, target := 1 }

/-- C9: onMouseDoubleClick resolves the logical row index by a direct array
index into `rowManager.rows` with no bounds check: at this double-click over a
non-header, non-index cell whose rendered row index (5) is out of range of the
two-element rows collection, `getRowIndex` hits its error branch and so does
the whole handler — no guard makes it a no-op (`.ok`). -/
theorem C9_row_lookup_unguarded :
    isOverHeader staleGrid staleEvt = false ∧
    staleGrid.getCellData staleEvt.clientX staleEvt.clientY = some staleCell ∧
    staleCell.type ≠ COLUMN_TYPES.index ∧
    staleGrid.rows[staleCell.row]? = none ∧
    getRowIndex staleGrid staleCell.row
      = .error "TypeError: rows[renderedRowIndex] is undefined" ∧
    onMouseDoubleClick staleGrid staleEvt
      = .error "TypeError: rows[renderedRowIndex] is undefined" := by
  refine ⟨by decide, rfl, by decide, rfl, rfl, rfl⟩

/-- After `dispose` the manager is always marked disposed. -/
theorem dispose_disposed (s : GridState) : (dispose s).disposed = true := by
  unfold dispose
  split
  · assumption
  · rfl

/-- `dispose` on an already-disposed manager is the identity. -/
theorem dispose_of_disposed (s : GridState) (h : s.disposed = true) : dispose s = s := by
  unfold dispose
  simp [h]

/-- C1: dispose() is indeed idempotent (a second call is the identity), and the
first call marks the manager disposed; but it is NOT complete: on the state a
fresh constructor produces — listeners `mousemove`/`mouseout` on the grid node
and `mousedown` on the table-display element — the first dispose() leaves the
`mouseout` listener registered, because EventManager.ts:74 removes the pair
`('mousemove', handleMouseLeave)`, which was never registered. -/
theorem C1_dispose_idempotent_not_complete :
    (∀ s : GridState, dispose (dispose s) = dispose s) ∧
    constructedState.listeners =
      [⟨.gridNode, "mousemove", .handleMouseMove⟩,
       ⟨.gridNode, "mouseout", .handleMouseLeave⟩,
       ⟨.tableDisplayEl, "mousedown", .handleMouseDown⟩] ∧
    (dispose constructedState).listeners = [⟨.gridNode, "mouseout", .handleMouseLeave⟩] ∧
    (dispose constructedState).disposed = true := by
  refine ⟨fun s => dispose_of_disposed _ (dispose_disposed s), rfl, rfl, rfl⟩

/-- A state with a pending hover-debounce timer of id 5, recorded in
`cellHoverControl.timerId`. -/
def hoverPendingState : GridState :=
  { sampleBase with cellHoverControl := some ⟨some 5⟩, pendingTimers := [5], nextTimerId := 6 }

/-- C2 counterexample: on a state with a pending hover timer (id 5), dispose()
does not cancel it — timer 5 is still pending afterwards (dispose only
schedules one more zero-delay task, id 6, that will null the hover-control
reference), refuting the part of the claim that says dispose() cancels the
pending hover timer. -/
theorem C2_dispose_keeps_hover_timer_pending :
    hoverPendingState.cellHoverControl = some ⟨some 5⟩ ∧
    hoverPendingState.pendingTimers = [5] ∧
    (dispose hoverPendingState).pendingTimers = [5, 6] ∧
    (dispose hoverPendingState).deferredNullTasks = [6] := by
  refine ⟨rfl, rfl, rfl, rfl⟩

/-- C2 (amended): onMouseLeave — when the pointer is outside the grid node and
no button is held — cancels the pending hover-debounce timer; dispose() does
not cancel any pending timer (every timer pending before dispose is still
pending after). -/
theorem C2_hover_timer_cancelled_on_leave_only (s : GridState) (e : MouseEvent)
    (ctl : CellHoverControl) (t : Nat)
    (hin : s.insideGridNode e = false) (hb : e.buttons = 0)
    (hc : s.cellHoverControl = some ctl) (ht : ctl.timerId = some t) :
    (∃ s', onMouseLeave s e = .ok s' ∧ t ∉ s'.pendingTimers) ∧
    (∀ u ∈ s.pendingTimers, u ∈ (dispose s).pendingTimers) := by
  constructor
  · unfold onMouseLeave
    simp only [isNodeInsideGrid, hin, hb, ne_eq, not_true_eq_false, Bool.false_eq_true,
      false_or, if_false, hc, ht]
    refine ⟨_, rfl, ?_⟩
    simp [setFocus, stopDragging, setCursorStyle, emitCellHovered, hideTooltips,
      GridState.emit, clearTimeoutJs, List.mem_filter]
  · intro u hu
    unfold dispose
    split
    · exact hu
    · simp only [removeEventListener, clearReferences, setTimeoutFresh, List.mem_append]
      exact Or.inl hu

theorem C2_hover_timer_cancelled_on_leave_only_concrete :
    (∃ s', onMouseLeave hoverPendingState
        { clientX := 0, clientY := 0, buttons := 0, button := 0, target := 0 } = .ok s' ∧
        5 ∉ s'.pendingTimers) ∧
    (∀ u ∈ hoverPendingState.pendingTimers, u ∈ (dispose hoverPendingState).pendingTimers) :=
  C2_hover_timer_cancelled_on_leave_only hoverPendingState _ ⟨some 5⟩ 5 rfl rfl rfl rfl

/-- `onMouseHover` never changes the drag-in-progress state. -/
theorem onMouseHover_isDragging (s : GridState) (e : MouseEvent) :
    (onMouseHover s e).isDragging = s.isDragging := by
  unfold onMouseHover
  cases s.getCellData e.clientX e.clientY <;> rfl

/-- `onMouseHover` only appends to the call log. -/
theorem onMouseHover_log_mono (s : GridState) (e : MouseEvent) :
    ∃ t, (onMouseHover s e).log = s.log ++ t := by
  unfold onMouseHover
  cases s.getCellData e.clientX e.clientY
  · exact ⟨[], by simp⟩
  · rename_i d
    exact ⟨[Effect.cellHovered (some d), Effect.selectionBodyCellHover],
      by simp [emitCellHovered, selectionBodyCellHover, GridState.emit]⟩

/-- A state where a resize gesture and a column drag are simultaneously in
progress. -/
def resizingDragState : GridState :=
  { sampleBase with isResizing := true, isDragging := true }

/-- C4 counterexample: a mouse-move with `buttons = 0` on a state where a
resize is in progress returns immediately (EventManager.ts:97-99) and leaves
the in-progress column drag active — `stopDragging` is never called — so the
claim's unconditional "after onMouseMove completes no column drag is in
progress" fails. -/
theorem C4_resize_guard_blocks_drag_cancel :
    resizingDragState.isDragging = true ∧
    ({ clientX := 0, clientY := 0, buttons := 0, button := 0, target := 0 } :
      MouseEvent).buttons ≠ 1 ∧
    onMouseMove resizingDragState
      { clientX := 0, clientY := 0, buttons := 0, button := 0, target := 0 }
      = resizingDragState ∧
    (onMouseMove resizingDragState
      { clientX := 0, clientY := 0, buttons := 0, button := 0, target := 0 }).isDragging
      = true := by
  refine ⟨rfl, by decide, rfl, rfl⟩

/-- C4 (amended): provided no resize gesture is active, every mouse-move whose
`buttons` field is not 1 cancels any in-progress column drag via the column
position controller's `stopDragging`: the call appears in the log and the
drag-in-progress state is cleared when the handler completes. -/
theorem C4_move_nonprimary_cancels_drag (s : GridState) (e : MouseEvent)
    (hr : s.isResizing = false) (hb : e.buttons ≠ 1) :
    (onMouseMove s e).isDragging = false ∧
    Effect.stopDragging ∈ (onMouseMove s e).log := by
  have hmove : onMouseMove s e =
      (if (setResizeMode (stopDragging s)).isResizing
          || isOutsideViewport (setResizeMode (stopDragging s)) e
       then setResizeMode (stopDragging s)
       else onMouseHover (moveDraggedHeader (setResizeMode (stopDragging s))) e) := by
    unfold onMouseMove
    rw [if_neg (by simp [hr]), if_pos hb]
    have h1 : (!(stopDragging s).isResizing) = true := by
      simp [stopDragging, GridState.emit, hr]
    simp only [h1, if_true]
  rw [hmove]
  split
  · constructor
    · simp [setResizeMode, stopDragging, GridState.emit]
    · simp [setResizeMode, stopDragging, GridState.emit]
  · constructor
    · rw [onMouseHover_isDragging]
      simp [moveDraggedHeader, setResizeMode, stopDragging, GridState.emit]
    · obtain ⟨t, ht⟩ :=
        onMouseHover_log_mono (moveDraggedHeader (setResizeMode (stopDragging s))) e
      rw [ht]
      simp [moveDraggedHeader, setResizeMode, stopDragging, GridState.emit]

theorem C4_move_nonprimary_cancels_drag_concrete :
    (onMouseMove { sampleBase with isDragging := true }
      { clientX := 0, clientY := 0, buttons := 0, button := 0, target := 0 }).isDragging
      = false ∧
    Effect.stopDragging ∈ (onMouseMove { sampleBase with isDragging := true }
      { clientX := 0, clientY := 0, buttons := 0, button := 0, target := 0 }).log :=
  C4_move_nonprimary_cancels_drag _ _ rfl (by decide)

/-- `handleBodyClick` either leaves the state unchanged or opens one URL. -/
theorem handleBodyClick_log_cases (s : GridState) (e : MouseEvent) :
    (handleBodyClick s e).log = s.log ∨
    ∃ url, (handleBodyClick s e).log = s.log ++ [Effect.openUrl url] := by
  unfold handleBodyClick
  repeat' split
  all_goals first
    | exact Or.inl rfl
    | exact Or.inr ⟨_, rfl⟩

/-- C5: a header-region sort toggle on mouse-up requires all three conditions —
over-header spatial test, primary button (`button = 0`), and event target
identical to the grid's canvas.  Whenever any one fails, onMouseUp makes no
`toggleSort` call: the toggle-sort calls in the log are exactly those already
there. -/
theorem C5_sort_toggle_needs_three_conditions (s : GridState) (e : MouseEvent)
    (h : isOverHeader s e = false ∨ e.button ≠ 0 ∨ e.target ≠ s.canvas)
    (r : String) (c : Nat) :
    Effect.toggleSort r c ∈ (onMouseUp s e).log ↔ Effect.toggleSort r c ∈ s.log := by
  have hclick : isHeaderClicked s e = false := by
    unfold isHeaderClicked
    rcases h with h | h | h <;> simp [h]
  unfold onMouseUp
  split
  · simp [stopResizing, GridState.emit]
  · have hh : handleHeaderClick (selectionHandleMouseUp s) e = selectionHandleMouseUp s := by
      have hclick' : isHeaderClicked (selectionHandleMouseUp s) e = false := hclick
      unfold handleHeaderClick
      simp [hclick']
    simp only [hh]
    rcases handleBodyClick_log_cases (selectionHandleMouseUp s) e with hbc | ⟨url, hbc⟩ <;>
      rw [show ∀ x : GridState, (dropColumn x).log = x.log ++ [Effect.dropColumn]
            from fun _ => rfl, hbc] <;>
      simp [selectionHandleMouseUp, GridState.emit, List.mem_append]

/-- A column-header cell, for the synthetic-event sample. -/
def hdrCell : CellData :=
  { region := "column-header", row := 0, column := 0, type := .body
    , delta := 2, width := 60, value := "h" }

theorem C5_sort_toggle_needs_three_conditions_concrete :
    Effect.toggleSort "column-header" 0 ∉
      (onMouseUp { sampleBase with getCellData := fun _ _ => some hdrCell }
        { clientX := 10, clientY := 5, buttons := 0, button := 0, target := 2 }).log := by
  have h := C5_sort_toggle_needs_three_conditions
    { sampleBase with getCellData := fun _ _ => some hdrCell }
    { clientX := 10, clientY := 5, buttons := 0, button := 0, target := 2 }
    (Or.inr (Or.inr (by decide))) "column-header" 0
  simpa [sampleBase] using h

/-- C6: for every double-click over a non-header, non-index-column cell (whose
rendered row resolves in the rows collection), with both feature flags enabled,
onMouseDoubleClick emits exactly two outbound messages, in order: first the
double-click message, then the action-detail message tagged DOUBLE_CLICK, both
carrying the same resolved logical row index and the same column. -/
theorem C6_double_click_emits_two_messages (s : GridState) (e : MouseEvent)
    (d : CellData) (r : RowEntry)
    (hover : isOverHeader s e = false)
    (hdata : s.getCellData e.clientX e.clientY = some d)
    (htype : d.type ≠ COLUMN_TYPES.index)
    (hrow : s.rows[d.row]? = some r)
    (hact : s.selectHasDoubleClickAction = true)
    (htag : s.selectDoubleClickTag = true) :
    ∃ s', onMouseDoubleClick s e = .ok s' ∧
      commLog s'.log = commLog s.log ++
        [.doubleClick r.index d.column, .actionDetails "DOUBLE_CLICK" r.index d.column] := by
  unfold onMouseDoubleClick getRowIndex
  rw [if_neg (by simp [hover])]
  simp only [hdata, hrow, if_neg htype, hact, htag, if_true]
  refine ⟨_, rfl, ?_⟩
  simp [emitComm, GridState.emit, commLog, htag, List.filterMap_append]

/-- A body cell at rendered row 1, column 3, within the sample rows. -/
def dcCell : CellData :=
  { region := "body", row := 1, column := 3, type := .body
    , delta := 5, width := 60, value := "x" }

/-- The sample grid whose spatial query reports `dcCell`. -/
def dcGrid : GridState := { sampleBase with getCellData := fun _ _ => some dcCell }

theorem C6_double_click_emits_two_messages_concrete :
    ∃ s', onMouseDoubleClick dcGrid
        { clientX := 50, clientY := 100, buttons := 0, button := 0, target := 1 } = .ok s' ∧
      commLog s'.log =
        [.doubleClick 1 3, .actionDetails "DOUBLE_CLICK" 1 3] := by
  have h := C6_double_click_emits_two_messages dcGrid
    { clientX := 50, clientY := 100, buttons := 0, button := 0, target := 1 }
    dcCell ⟨1⟩ (by decide) rfl (by decide) rfl rfl rfl
  simpa [dcGrid, sampleBase, commLog] using h

/-- C7: on a shift-held arrow key-down with a focused cell and no selection
anchor, onKeyDown leaves the anchor unset and sets the selection end (and the
focus) to the newly focused cell computed by the focus navigation rule. -/
theorem C7_shift_arrow_moves_end_not_anchor (s : GridState) (e : KeyboardEvent)
    (c : CellData)
    (hshift : e.shiftKey = true)
    (hcode : e.keyCode = KEYBOARD_KEYS.ArrowLeft ∨ e.keyCode = KEYBOARD_KEYS.ArrowRight ∨
      e.keyCode = KEYBOARD_KEYS.ArrowDown ∨ e.keyCode = KEYBOARD_KEYS.ArrowUp)
    (hfocus : s.focusedCellData = some c)
    (hanchor : s.startCellData = none) :
    (onKeyDown s e).startCellData = none ∧
    (onKeyDown s e).endCellData = s.navigateFocus e.keyCode (some c) ∧
    (onKeyDown s e).focusedCellData = s.navigateFocus e.keyCode (some c) := by
  rcases hcode with h | h | h | h <;>
    simp [onKeyDown, getEventKeyCode, handleEnterKeyDown, handleHighlighterKeyDown,
      handleNumKeyDown, handleNavigationKeyDown, setFocusedCellByNavigationKey, setEndCell,
      GridState.emit, h, hshift, hfocus, hanchor,
      KEYBOARD_KEYS.Enter, KEYBOARD_KEYS.PageUp, KEYBOARD_KEYS.PageDown,
      KEYBOARD_KEYS.ArrowLeft, KEYBOARD_KEYS.ArrowRight, KEYBOARD_KEYS.ArrowDown,
      KEYBOARD_KEYS.ArrowUp, KEYBOARD_KEYS.Digit0, KEYBOARD_KEYS.Digit9,
      KEYBOARD_KEYS.KeyB, KEYBOARD_KEYS.KeyH, KEYBOARD_KEYS.KeyU]

/-- A focused body cell. -/
def focusCell : CellData :=
  { region := "body", row := 0, column := 1, type := .body
    , delta := 0, width := 60, value := "f" }

/-- The cell the sample navigation rule moves focus to. -/
def navCell : CellData :=
  { region := "body", row := 1, column := 1, type := .body
    , delta := 0, width := 60, value := "g" }

/-- The sample grid with a focused cell and a constant navigation rule. -/
def focusGrid : GridState :=
  { sampleBase with
      focusedCellData := some focusCell
      navigateFocus := fun _ _ => some navCell }

theorem C7_shift_arrow_moves_end_not_anchor_concrete :
    (onKeyDown focusGrid { keyCode := 40, shiftKey := true }).startCellData = none ∧
    (onKeyDown focusGrid { keyCode := 40, shiftKey := true }).endCellData = some navCell ∧
    (onKeyDown focusGrid { keyCode := 40, shiftKey := true }).focusedCellData = some navCell := by
  have h := C7_shift_arrow_moves_end_not_anchor focusGrid { keyCode := 40, shiftKey := true }
    focusCell rfl (Or.inr (Or.inr (Or.inl rfl))) rfl rfl
  simpa [focusGrid, sampleBase] using h

/-- C8 counterexample: a shift-held digit key-down ('3', keyCode 51) with no
focused cell (hence no focused column) does NOT set precision on a single
focused column only: `handleNumKeyDown` falls through to the all-columns call
and every column's precision changes, refuting the claim's shift branch. -/
theorem C8_shift_digit_without_column_sets_all :
    sampleBase.focusedCellData = none ∧
    sampleBase.precisions = [0, 0] ∧
    (onKeyDown sampleBase { keyCode := 51, shiftKey := true }).precisions = [3, 3] ∧
    Effect.setColumnsPrecision 3 ∈
      (onKeyDown sampleBase { keyCode := 51, shiftKey := true }).log := by
  refine ⟨rfl, rfl, rfl, by decide⟩

/-- C8 (amended): a digit key-down 0-9 sets the display precision to that
digit: when shift is held and a focused column resolves, on that single column
only (`List.set` leaves every other column unchanged); otherwise — no shift,
or shift with no focused column — across all columns uniformly. -/
theorem C8_digit_sets_precision (s : GridState) (e : KeyboardEvent)
    (hlo : KEYBOARD_KEYS.Digit0 ≤ e.keyCode) (hhi : e.keyCode ≤ KEYBOARD_KEYS.Digit9) :
    (∀ col, e.shiftKey = true → s.focusedCellData.bind s.takeColumnByCell = some col →
      (onKeyDown s e).precisions = s.precisions.set col (digitOfKeyCode e.keyCode)) ∧
    ((e.shiftKey = false ∨ s.focusedCellData.bind s.takeColumnByCell = none) →
      (onKeyDown s e).precisions = s.precisions.map (fun _ => digitOfKeyCode e.keyCode)) := by
  have hlo' : 48 ≤ e.keyCode := hlo
  have hhi' : e.keyCode ≤ 57 := hhi
  have hred : onKeyDown s e =
      handleNumKeyDown s e.keyCode e.shiftKey (s.focusedCellData.bind s.takeColumnByCell) := by
    simp only [onKeyDown, getEventKeyCode]
    rw [if_neg (by omega)]
    have h1 : handleEnterKeyDown s e.keyCode e.shiftKey s.focusedCellData = s := by
      unfold handleEnterKeyDown KEYBOARD_KEYS.Enter
      rw [if_pos (by omega)]
    have h2 : ∀ x : GridState,
        handleHighlighterKeyDown x e.keyCode (s.focusedCellData.bind s.takeColumnByCell)
          = x := by
      intro x
      unfold handleHighlighterKeyDown KEYBOARD_KEYS.KeyH KEYBOARD_KEYS.KeyU KEYBOARD_KEYS.KeyB
      rw [if_neg (by omega), if_neg (by omega), if_neg (by omega)]
    have hnotmem : ¬ e.keyCode ∈ [KEYBOARD_KEYS.ArrowLeft, KEYBOARD_KEYS.ArrowRight,
        KEYBOARD_KEYS.ArrowDown, KEYBOARD_KEYS.ArrowUp, KEYBOARD_KEYS.PageUp,
        KEYBOARD_KEYS.PageDown] := by
      simp only [KEYBOARD_KEYS.ArrowLeft, KEYBOARD_KEYS.ArrowRight, KEYBOARD_KEYS.ArrowDown,
        KEYBOARD_KEYS.ArrowUp, KEYBOARD_KEYS.PageUp, KEYBOARD_KEYS.PageDown,
        List.mem_cons, List.not_mem_nil, or_false]
      omega
    have h3 : ∀ x : GridState, handleNavigationKeyDown x e.keyCode e = x := by
      intro x
      simp only [handleNavigationKeyDown]
      rw [if_pos hnotmem]
    rw [h1, h2, h3]
  have hcond : ¬ (e.keyCode < KEYBOARD_KEYS.Digit0 || e.keyCode > KEYBOARD_KEYS.Digit9) = true := by
    simp only [KEYBOARD_KEYS.Digit0, KEYBOARD_KEYS.Digit9, Bool.or_eq_true, decide_eq_true_eq]
    omega
  constructor
  · intro col hshift hcol
    rw [hred]
    simp only [handleNumKeyDown]
    rw [if_neg hcond, hshift, hcol]
    simp [setDataTypePrecision, GridState.emit]
  · intro h
    rw [hred]
    simp only [handleNumKeyDown]
    rw [if_neg hcond]
    rcases h with hsh | hcol
    · rw [hsh]
      simp [setColumnsDataTypePrecission, GridState.emit]
    · rw [hcol]
      cases he : e.shiftKey <;>
        simp [setColumnsDataTypePrecission, GridState.emit]

/-- The sample grid with a focused cell whose column resolves to column 1, and
per-column precisions `[7, 7]`. -/
def focusColGrid : GridState :=
  { sampleBase with
      focusedCellData := some focusCell
      takeColumnByCell := fun _ => some 1
      precisions := [7, 7] }

theorem C8_digit_sets_precision_concrete :
    (onKeyDown focusColGrid { keyCode := 51, shiftKey := true }).precisions = [7, 3] ∧
    (onKeyDown focusColGrid { keyCode := 51, shiftKey := false }).precisions = [3, 3] := by
  constructor
  · have h := (C8_digit_sets_precision focusColGrid { keyCode := 51, shiftKey := true }
      (by decide) (by decide)).1 1 rfl rfl
    simpa [focusColGrid, sampleBase, digitOfKeyCode] using h
  · have h := (C8_digit_sets_precision focusColGrid { keyCode := 51, shiftKey := false }
      (by decide) (by decide)).2 (Or.inl rfl)
    simpa [focusColGrid, sampleBase, digitOfKeyCode] using h
